import Mathlib

/-!
Shallow embedding of the occupeye-migration utility
(src/migrateData.ts and src/services/fireStoreQueries.ts).

External effects (database creates and deletes, HTTP downloads, image
transcoding, object-storage uploads, the document store) are modelled by
pure state passing and by boolean success oracles; identifier generation
by the destination database is modelled by explicit id-supplying function
parameters. Machine floating point in the image resize step is modelled
over the rationals. Dynamic exception text interpolated into error
messages is abstracted to its static part.
-/

namespace Occupeye

/-- Source record shape of the spaces dataset (interface StudyRoomData). -/
structure StudyRoomData where
  id : String
  name : String
  building : String
  spaceType : Option String
  location : String
  imageURL : Option (List String)
  features : List String
  noiseLevel : String
  capacity : Option Nat
  description : String
deriving DecidableEq, Repr

/-- Embedded capability block of a rooms-dataset record. Fields are
modelled as optional to capture records whose JSON omits a flag. -/
structure RoomInformation where
  av_inputs : Option String
  pc : Option String
  whiteboard : Option String
  projector : Option String
deriving DecidableEq, Repr

/-- Source record shape of the rooms dataset (interface RoomData). -/
structure RoomData where
  id : String
  building : String
  photos : Option (List String)
  room : String
  information : RoomInformation
deriving DecidableEq, Repr

/-- Static building-name normalization table, in source order
(const buildingNameMap). -/
def buildingNameMap : List (String × String) :=
  [ ("Peters", "Peters Building"),
    ("Peters Building", "Peters Building"),
    ("Lazaridis Hall", "Lazaridis Hall"),
    ("Science Building", "Science Building"),
    ("Science & Research", "Science Building"),
    ("Dr. Alvin Woods Building", "Dr. Alvin Woods Building"),
    ("Fred Nichols Campus Center", "Fred Nichols Campus Center"),
    ("Fred Nichols Campus Centre", "Fred Nichols Campus Center"),
    ("Schlegel", "Schlegel Building"),
    ("Schlegel Building", "Schlegel Building"),
    ("Bricker Academic Building", "Bricker Academic Building"),
    ("University Library", "University Library"),
    ("Arts", "Arts Building"),
    ("Arts Building", "Arts Building"),
    ("MLU", "Martin Luther University College") ]

/-- JavaScript a-or-else-b on strings: the left operand is taken when it
is present and truthy (a nonempty string), otherwise the right one. -/
def jsOrString (a : Option String) (b : String) : String :=
  match a with
  | some s => if s = "" then b else s
  | none => b

/-- Building-name normalizer (function normalizeBuildingName): exact
lookup in the static table, falling back to the input itself. -/
def normalizeBuildingName (name : String) : String :=
  jsOrString (buildingNameMap.lookup name) name

/-- Destination University row (step createUniversity). -/
structure University where
  id : String
  name : String
  slug : String
deriving DecidableEq, Repr

/-- Destination Building row. -/
structure Building where
  id : String
  name : String
  universityId : String
deriving DecidableEq, Repr

/-- One step of the building-name collection of createBuildings: a record
with a truthy building field contributes its normalized name, added once
(JavaScript Set insertion order). -/
def addBuildingName (acc : List String) (b : String) : List String :=
  if b = "" then acc
  else if normalizeBuildingName b ∈ acc then acc
  else acc ++ [normalizeBuildingName b]

/-- Distinct normalized building names gathered by createBuildings from
the spaces dataset and then the rooms dataset, in first-seen order. -/
def collectBuildingNames (studyRooms : List StudyRoomData) (rooms : List RoomData) :
    List String :=
  rooms.foldl (fun acc r => addBuildingName acc r.building)
    (studyRooms.foldl (fun acc r => addBuildingName acc r.building) [])

/-- Result of the building-creation step: the name-to-id lookup table,
the created Building rows, and the accumulated error list. -/
structure BuildingsResult where
  buildingMap : List (String × String)
  created : List Building
  errors : List String
deriving DecidableEq, Repr

/-- Body of the creation loop of createBuildings: on success the row is
inserted and recorded in the lookup table, on failure one error message
is appended and the loop continues. -/
def createBuildingStep (ok : String → Bool) (newId : String → String) (universityId : String)
    (acc : BuildingsResult) (n : String) : BuildingsResult :=
  if ok n then
    { acc with
      buildingMap := acc.buildingMap ++ [(n, newId n)],
      created := acc.created ++ [{ id := newId n, name := n, universityId := universityId }] }
  else
    { acc with errors := acc.errors ++ ["Failed to create building " ++ n] }

/-- Building-creation step (function createBuildings). The per-building
try-catch around the database insert is modelled by the success oracle
ok; ids handed out by the database are modelled by newId. -/
def createBuildings (ok : String → Bool) (newId : String → String) (universityId : String)
    (studyRooms : List StudyRoomData) (rooms : List RoomData) : BuildingsResult :=
  (collectBuildingNames studyRooms rooms).foldl
    (createBuildingStep ok newId universityId) ⟨[], [], []⟩

/-- JavaScript a-or-else-null on an optional string: an absent or empty
value becomes null (spaceType in the studySpot create call). -/
def jsOrNull (a : Option String) : Option String :=
  match a with
  | some s => if s = "" then none else some s
  | none => none

/-- Destination StudySpot row. -/
structure StudySpot where
  id : String
  name : String
  buildingId : String
  location : String
  description : String
  features : List String
  noiseLevel : String
  spaceType : Option String
deriving DecidableEq, Repr

/-- Destination LectureHall row. -/
structure LectureHall where
  id : String
  buildingId : String
  room : String
  hasAvInputs : Bool
  hasPc : Bool
  hasWhiteboard : Bool
  hasProjector : Bool
deriving DecidableEq, Repr

/-- Field mapping of the studySpot create call in migrateStudySpots. -/
def mkStudySpot (id buildingId : String) (r : StudyRoomData) : StudySpot :=
  { id := id, name := r.name, buildingId := buildingId, location := r.location,
    description := r.description, features := r.features,
    noiseLevel := r.noiseLevel, spaceType := jsOrNull r.spaceType }

/-- Field mapping of the lectureHall create call in migrateLectureHalls:
each capability flag is an exact equality test against the string yes. -/
def mkLectureHall (id buildingId : String) (r : RoomData) : LectureHall :=
  { id := id, buildingId := buildingId, room := r.room,
    hasAvInputs := r.information.av_inputs == some "yes",
    hasPc := r.information.pc == some "yes",
    hasWhiteboard := r.information.whiteboard == some "yes",
    hasProjector := r.information.projector == some "yes" }

/-- Building lookup of the migration loops: the normalized name is looked
up in the buildingMap table, and a missing or falsy (empty) id counts as
unresolved, matching the if-not-buildingId throw. -/
def resolveBuilding (buildingMap : List (String × String)) (b : String) : Option String :=
  match buildingMap.lookup (normalizeBuildingName b) with
  | some bid => if bid = "" then none else some bid
  | none => none

/-- Result of the study-spot migration step. -/
structure SpotsResult where
  studySpotMap : List (String × String)
  created : List StudySpot
  errors : List String
deriving DecidableEq, Repr

/-- Body of the loop of migrateStudySpots. The per-record try-catch of
the source catches both the thrown building-not-found and a rejected
database insert: an unresolved building fails only this record with one
appended error; on a resolved one the insert itself can still be
rejected by the store, modelled by the success oracle ok, again
appending one error and skipping only this record. A successful insert
records source-id to destination-id. -/
def migrateStudySpotStep (ok : StudyRoomData → Bool) (newId : String → String)
    (buildingMap : List (String × String))
    (acc : SpotsResult) (room : StudyRoomData) : SpotsResult :=
  match resolveBuilding buildingMap room.building with
  | none => { acc with errors := acc.errors ++ ["Failed to create study spot " ++ room.name] }
  | some bid =>
      if ok room then
        { acc with
          studySpotMap := acc.studySpotMap ++ [(room.id, newId room.id)],
          created := acc.created ++ [mkStudySpot (newId room.id) bid room] }
      else
        { acc with errors := acc.errors ++ ["Failed to create study spot " ++ room.name] }

/-- Study-spot migration (function migrateStudySpots). -/
def migrateStudySpots (ok : StudyRoomData → Bool) (newId : String → String)
    (buildingMap : List (String × String))
    (studyRooms : List StudyRoomData) : SpotsResult :=
  studyRooms.foldl (migrateStudySpotStep ok newId buildingMap) ⟨[], [], []⟩

/-- Result of the lecture-hall migration step. -/
structure HallsResult where
  lectureHallMap : List (String × String)
  created : List LectureHall
  errors : List String
deriving DecidableEq, Repr

/-- Body of the loop of migrateLectureHalls, with the same caught error
paths as the study-spot loop: unresolved building, or an insert the
store rejects (the success oracle ok), each failing only this record
with one appended error. -/
def migrateLectureHallStep (ok : RoomData → Bool) (newId : String → String)
    (buildingMap : List (String × String))
    (acc : HallsResult) (room : RoomData) : HallsResult :=
  match resolveBuilding buildingMap room.building with
  | none => { acc with errors := acc.errors ++ ["Failed to create lecture hall " ++ room.room] }
  | some bid =>
      if ok room then
        { acc with
          lectureHallMap := acc.lectureHallMap ++ [(room.id, newId room.id)],
          created := acc.created ++ [mkLectureHall (newId room.id) bid room] }
      else
        { acc with errors := acc.errors ++ ["Failed to create lecture hall " ++ room.room] }

/-- Lecture-hall migration (function migrateLectureHalls). -/
def migrateLectureHalls (ok : RoomData → Bool) (newId : String → String)
    (buildingMap : List (String × String))
    (rooms : List RoomData) : HallsResult :=
  rooms.foldl (migrateLectureHallStep ok newId buildingMap) ⟨[], [], []⟩

/-- Name of the storage bucket (const STORAGE_BUCKET). -/
def STORAGE_BUCKET : String := "occupeye-photos"

/-- Storage path built for the i-th image of a study spot. -/
def spotStoragePath (universityId studySpotId : String) (i : Nat) : String :=
  "universities/" ++ universityId ++ "/photos/study-spots/" ++ studySpotId ++
    "/" ++ toString i ++ ".webp"

/-- Storage path built for the i-th image of a lecture hall. -/
def hallStoragePath (universityId lectureHallId : String) (i : Nat) : String :=
  "universities/" ++ universityId ++ "/photos/lecture-halls/" ++ lectureHallId ++
    "/" ++ toString i ++ ".webp"

/-- Public URL the storage service hands back for an uploaded object,
keyed by the project base URL, the bucket and the storage path. -/
def publicUrlFor (base storagePath : String) : String :=
  base ++ "/storage/v1/object/public/" ++ STORAGE_BUCKET ++ "/" ++ storagePath

/-- Destination Photo row. -/
structure Photo where
  storagePath : String
  url : String
  studySpotId : Option String
  lectureHallId : Option String
deriving DecidableEq, Repr

/-- Photo row created for the i-th image of a study spot. -/
def spotPhotoAt (base universityId studySpotId : String) (i : Nat) : Photo :=
  { storagePath := spotStoragePath universityId studySpotId i,
    url := publicUrlFor base (spotStoragePath universityId studySpotId i),
    studySpotId := some studySpotId, lectureHallId := none }

/-- Photo row created for the i-th image of a lecture hall. -/
def hallPhotoAt (base universityId lectureHallId : String) (i : Nat) : Photo :=
  { storagePath := hallStoragePath universityId lectureHallId i,
    url := publicUrlFor base (hallStoragePath universityId lectureHallId i),
    studySpotId := none, lectureHallId := some lectureHallId }

/-- Inner image loop of processPhotos, starting at index i: each URL is
attempted independently; the success oracle ok stands for the whole
download-optimize-upload-insert attempt of one image, whose try-catch
turns a failure into one appended error. -/
def processImagesFrom (ok : String → Bool) (mkPhoto : Nat → Photo) (errMsg : String) :
    Nat → List String → List Photo × List String
  | _, [] => ([], [])
  | i, u :: rest =>
      let r := processImagesFrom ok mkPhoto errMsg (i + 1) rest
      if ok u then (mkPhoto i :: r.1, r.2) else (r.1, errMsg :: r.2)

/-- Per-record photo handling for a spaces-dataset record: records with
no image list, an empty one, or no entry in the study-spot lookup table
are skipped without output. -/
def processStudyRoomPhotos (ok : String → Bool) (base universityId : String)
    (studySpotMap : List (String × String)) (room : StudyRoomData) :
    List Photo × List String :=
  match room.imageURL with
  | none => ([], [])
  | some urls =>
      if urls.length = 0 then ([], [])
      else
        match studySpotMap.lookup room.id with
        | none => ([], [])
        | some sid =>
            if sid = "" then ([], [])
            else processImagesFrom ok (spotPhotoAt base universityId sid)
                  ("Failed to process photo for study spot " ++ room.name) 0 urls

/-- Per-record photo handling for a rooms-dataset record. -/
def processRoomPhotos (ok : String → Bool) (base universityId : String)
    (lectureHallMap : List (String × String)) (room : RoomData) :
    List Photo × List String :=
  match room.photos with
  | none => ([], [])
  | some urls =>
      if urls.length = 0 then ([], [])
      else
        match lectureHallMap.lookup room.id with
        | none => ([], [])
        | some hid =>
            if hid = "" then ([], [])
            else processImagesFrom ok (hallPhotoAt base universityId hid)
                  ("Failed to process photo for lecture hall " ++ room.room) 0 urls

/-- Photo stage (function processPhotos): all spaces-dataset records in
order, then all rooms-dataset records, photos and errors accumulated. -/
def processPhotos (ok : String → Bool) (base universityId : String)
    (studySpotMap lectureHallMap : List (String × String))
    (studyRooms : List StudyRoomData) (rooms : List RoomData) :
    List Photo × List String :=
  rooms.foldl
    (fun acc r =>
      (acc.1 ++ (processRoomPhotos ok base universityId lectureHallMap r).1,
       acc.2 ++ (processRoomPhotos ok base universityId lectureHallMap r).2))
    (studyRooms.foldl
      (fun acc r =>
        (acc.1 ++ (processStudyRoomPhotos ok base universityId studySpotMap r).1,
         acc.2 ++ (processStudyRoomPhotos ok base universityId studySpotMap r).2))
      ([], []))

/-- Path layout stated by the spec for uploaded images, written out for
comparison with the paths the code builds. -/
def specStoragePath (orgId kind entityId : String) (i : Nat) (ext : String) : String :=
  "organizations/" ++ orgId ++ "/photos/" ++ kind ++ "/" ++ entityId ++
    "/" ++ toString i ++ "." ++ ext

/-- JavaScript a-or-else-b on an optional number: zero and absent are
falsy, so both fall back to the default (the metadata-width-or-1000). -/
def jsOrNat (v : Option Nat) (d : Nat) : Nat :=
  match v with
  | some n => if n = 0 then d else n
  | none => d

/-- One resized dimension of optimizeImage: the decoded dimension, or
1000 when absent, times 0.3 and rounded half-up, the behavior of the
JavaScript rounding function on nonnegative input. -/
def newDimension (v : Option Nat) : ℤ :=
  round ((jsOrNat v 1000 : ℚ) * (3 / 10))

/-- Output dimensions of the transcode step of optimizeImage. -/
def optimizeDims (width height : Option Nat) : ℤ × ℤ :=
  (newDimension width, newDimension height)

/-- A primitive JSON value of an exported document field. -/
inductive JsonPrim where
  | str (s : String)
  | num (n : Int)
  | bool (b : Bool)
  | null
deriving DecidableEq, Repr

/-- A document of the source document store: identifier plus field data. -/
structure FireDoc where
  id : String
  fields : List (String × JsonPrim)
deriving DecidableEq, Repr

/-- A flattened exported document: the identifier merged into the field
set, as built by getCollectionData. -/
abbrev FlatDoc := List (String × JsonPrim)

/-- The source document store: collection name to documents. -/
abbrev FireStore := List (String × List FireDoc)

/-- Fetch of all documents of one collection (function getCollectionData):
each document is flattened with its id merged into its fields by object
spread, so the id key sits first but a data field also named id
overrides the document id under that single key; a name with no
documents yields the empty list, not an error. -/
def getCollectionData (store : FireStore) (collectionName : String) : List FlatDoc :=
  ((store.lookup collectionName).getD []).map
    (fun d => ("id", (d.fields.lookup "id").getD (JsonPrim.str d.id)) ::
      d.fields.filter (fun f => f.1 ≠ "id"))

/-- Double-quoted JSON string (escaping of special characters inside the
string is not modelled). -/
def quoteJson (s : String) : String := "\"" ++ s ++ "\""

/-- Serialization of a primitive JSON value. -/
def renderPrim : JsonPrim → String
  | .str s => quoteJson s
  | .num n => toString n
  | .bool b => if b then "true" else "false"
  | .null => "null"

/-- Indentation of the pretty serializer at two spaces per level. -/
def indentStr (depth : Nat) : String := String.mk (List.replicate (2 * depth) ' ')

/-- One serialized key-value line of a document. -/
def renderField (depth : Nat) (f : String × JsonPrim) : String :=
  indentStr depth ++ quoteJson f.1 ++ ": " ++ renderPrim f.2

/-- Serialized document object. -/
def renderObj (depth : Nat) (d : FlatDoc) : String :=
  match d with
  | [] => "\x7b\x7d"
  | _ => "\x7b\n" ++ String.intercalate ",\n" (d.map (renderField (depth + 1))) ++
      "\n" ++ indentStr depth ++ "\x7d"

/-- Serialization of the exported document array with two-space indent,
as JSON-stringify with indent two produces: the empty array serializes
to the two-character empty-array literal. -/
def serializeDocs (docs : List FlatDoc) : String :=
  match docs with
  | [] => "[]"
  | _ => "[\n" ++
      String.intercalate ",\n" (docs.map (fun d => indentStr 1 ++ renderObj 1 d)) ++
      "\n]"

/-- Local files written by the exporter, path to content. -/
abbrev FileSystem := List (String × String)

/-- Separator-joining of a directory and file name (dot-segment
normalization of the path library is not modelled). -/
def pathJoin (a b : String) : String := a ++ "/" ++ b

/-- Overwriting file write, the behavior of the synchronous write used by
saveToJson. -/
def fsWrite (fs : FileSystem) (p content : String) : FileSystem :=
  (fs.filter (fun e => e.1 ≠ p)) ++ [(p, content)]

/-- Serialization and write of one exported collection (function
saveToJson); directory creation is implicit in the path-keyed model. -/
def saveToJson (docs : List FlatDoc) (filename outputDir : String) (fs : FileSystem) :
    FileSystem :=
  fsWrite fs (pathJoin outputDir filename) (serializeDocs docs)

/-- Export of one collection to a JSON file named after it (function
exportCollectionToJson). -/
def exportCollectionToJson (store : FireStore) (collectionName outputDir : String)
    (fs : FileSystem) : FileSystem :=
  saveToJson (getCollectionData store collectionName) (collectionName ++ ".json")
    outputDir fs

/-- Pipeline steps of the migrate entry point, in the order they touch
external state. -/
inductive Step where
  | deletePhotos
  | deleteStudySpots
  | deleteLectureHalls
  | deleteBuildings
  | deleteUniversities
  | ensureBucket
  | createUniversityStep
  | createBuildingsStep
  | migrateStudySpotsStep
  | migrateLectureHallsStep
  | processPhotosStep
deriving DecidableEq, Repr

/-- Destination database tables. -/
structure DB where
  photos : List Photo
  studySpots : List StudySpot
  lectureHalls : List LectureHall
  buildings : List Building
  universities : List University
deriving DecidableEq, Repr

/-- Database with every table empty. -/
def emptyDB : DB := ⟨[], [], [], [], []⟩

/-- Unconditional deletion of all destination rows in child-to-parent
order (function clearExistingData), with the emitted deletion steps. -/
def clearExistingData (db : DB) : DB × List Step :=
  let db1 := { db with photos := [] }
  let db2 := { db1 with studySpots := [] }
  let db3 := { db2 with lectureHalls := [] }
  let db4 := { db3 with buildings := [] }
  let db5 := { db4 with universities := [] }
  (db5, [Step.deletePhotos, Step.deleteStudySpots, Step.deleteLectureHalls,
         Step.deleteBuildings, Step.deleteUniversities])

/-- Creation of the single University row (function createUniversity). -/
def createUniversity (newUid : String) (db : DB) : DB × String :=
  ({ db with universities := db.universities ++
      [{ id := newUid, name := "Wilfrid Laurier University", slug := "wilfrid-laurier" }] },
   newUid)

/-- The migrate entry point: clear, ensure bucket, create university,
create buildings, migrate study spots, migrate lecture halls, process
photos, strictly in sequence, returning the final database and the step
trace in execution order. -/
def migrate (okBuilding : String → Bool) (okSpotCreate : StudyRoomData → Bool)
    (okHallCreate : RoomData → Bool) (okImage : String → Bool) (newUid : String)
    (newBuildingId newSpotId newHallId : String → String) (base : String)
    (studyRooms : List StudyRoomData) (rooms : List RoomData) (db : DB) :
    DB × List Step :=
  let c := clearExistingData db
  let u := createUniversity newUid c.1
  let bres := createBuildings okBuilding newBuildingId u.2 studyRooms rooms
  let db2 := { u.1 with buildings := u.1.buildings ++ bres.created }
  let sres := migrateStudySpots okSpotCreate newSpotId bres.buildingMap studyRooms
  let db3 := { db2 with studySpots := db2.studySpots ++ sres.created }
  let hres := migrateLectureHalls okHallCreate newHallId bres.buildingMap rooms
  let db4 := { db3 with lectureHalls := db3.lectureHalls ++ hres.created }
  let pres := processPhotos okImage base u.2 sres.studySpotMap hres.lectureHallMap
      studyRooms rooms
  let db5 := { db4 with photos := db4.photos ++ pres.1 }
  (db5,
   c.2 ++ [Step.ensureBucket, Step.createUniversityStep, Step.createBuildingsStep,
     Step.migrateStudySpotsStep, Step.migrateLectureHallsStep, Step.processPhotosStep])

/-- Spaces-dataset record whose building field is the empty string. -/
def emptyBuildingRoom : StudyRoomData :=
  { id := "sr1", name := "Quiet Corner", building := "", spaceType := none,
    location := "2F", imageURL := none, features := [], noiseLevel := "low",
    capacity := none, description := "corner desk" }

end Occupeye

namespace Occupeye

/-- C1: for every key of the static table the normalizer returns the
mapped canonical string, and for every string that is not a key it
returns its input unchanged. -/
theorem normalizeBuildingName_spec :
    (∀ k v : String, (k, v) ∈ buildingNameMap → normalizeBuildingName k = v) ∧
    (∀ s : String, buildingNameMap.lookup s = none → normalizeBuildingName s = s) := by
  constructor
  · intro k v h
    simp only [buildingNameMap, List.mem_cons, List.not_mem_nil, or_false,
      Prod.mk.injEq] at h
    rcases h with ⟨hk, hv⟩ | ⟨hk, hv⟩ | ⟨hk, hv⟩ | ⟨hk, hv⟩ | ⟨hk, hv⟩ | ⟨hk, hv⟩
      | ⟨hk, hv⟩ | ⟨hk, hv⟩ | ⟨hk, hv⟩ | ⟨hk, hv⟩ | ⟨hk, hv⟩ | ⟨hk, hv⟩
      | ⟨hk, hv⟩ | ⟨hk, hv⟩ | ⟨hk, hv⟩ <;>
      subst hk <;> subst hv <;> decide
  · intro s h
    simp [normalizeBuildingName, h, jsOrString]

/-- Witness for C1 at concrete inputs: a mapped key and an unmapped name. -/
theorem normalizeBuildingName_spec_witness :
    normalizeBuildingName "Science & Research" = "Science Building" ∧
    normalizeBuildingName "Turret" = "Turret" :=
  ⟨normalizeBuildingName_spec.1 "Science & Research" "Science Building" (by decide),
   normalizeBuildingName_spec.2 "Turret" (by decide)⟩

lemma mem_addBuildingName (acc : List String) (b x : String) :
    x ∈ addBuildingName acc b ↔ x ∈ acc ∨ (b ≠ "" ∧ x = normalizeBuildingName b) := by
  unfold addBuildingName
  split_ifs with hb hm
  · simp [hb]
  · simp only [hb, ne_eq, not_false_iff, true_and]
    constructor
    · exact Or.inl
    · rintro (h | rfl)
      · exact h
      · exact hm
  · simp [hb, List.mem_append]

lemma mem_foldl_addBuildingName {α : Type} (f : α → String) (l : List α) (acc : List String)
    (x : String) :
    x ∈ l.foldl (fun a r => addBuildingName a (f r)) acc ↔
      x ∈ acc ∨ ∃ r ∈ l, f r ≠ "" ∧ x = normalizeBuildingName (f r) := by
  induction l generalizing acc with
  | nil => simp
  | cons hd tl ih =>
      rw [List.foldl_cons, ih, mem_addBuildingName]
      simp only [List.mem_cons]
      constructor
      · rintro ((h | h) | ⟨r, hr, h⟩)
        · exact Or.inl h
        · exact Or.inr ⟨hd, Or.inl rfl, h⟩
        · exact Or.inr ⟨r, Or.inr hr, h⟩
      · rintro (h | ⟨r, (rfl | hr), h⟩)
        · exact Or.inl (Or.inl h)
        · exact Or.inl (Or.inr h)
        · exact Or.inr ⟨r, hr, h⟩

lemma nodup_addBuildingName (acc : List String) (b : String) (h : acc.Nodup) :
    (addBuildingName acc b).Nodup := by
  unfold addBuildingName
  split_ifs with hb hm
  · exact h
  · exact h
  · simp [List.nodup_append, h, hm]

lemma nodup_foldl_addBuildingName {α : Type} (f : α → String) (l : List α)
    (acc : List String) (h : acc.Nodup) :
    (l.foldl (fun a r => addBuildingName a (f r)) acc).Nodup := by
  induction l generalizing acc with
  | nil => exact h
  | cons hd tl ih => exact ih _ (nodup_addBuildingName _ _ h)

lemma createBuildings_foldl_created (ok : String → Bool) (newId : String → String)
    (uid : String) (hok : ∀ n, ok n = true) (names : List String) (acc : BuildingsResult) :
    (names.foldl (createBuildingStep ok newId uid) acc).created
      = acc.created ++ names.map (fun n => Building.mk (newId n) n uid) := by
  induction names generalizing acc with
  | nil => simp
  | cons hd tl ih =>
      rw [List.foldl_cons, ih]
      simp [createBuildingStep, hok hd]

/-- C2 as stated is false on a record whose building field is empty: the
code skips falsy building names, so the created set omits the normalized
empty name that the claim set contains. -/
theorem createBuildings_claim_counterexample :
    ¬ (∀ x : String,
        x ∈ (createBuildings (fun _ => true) (fun n => "b-" ++ n) "u1"
              [emptyBuildingRoom] []).created.map Building.name ↔
          ((∃ r ∈ [emptyBuildingRoom], x = normalizeBuildingName r.building) ∨
           (∃ r ∈ ([] : List RoomData), x = normalizeBuildingName r.building))) := by
  intro h
  have h2 := (h "").mpr (Or.inl ⟨emptyBuildingRoom, by simp, by decide⟩)
  exact absurd h2 (by decide)

/-- C2 amended: assuming no per-building creation error, the names of the
created Building rows are exactly the distinct normalized building names
of the records of both datasets whose building field is nonempty, with
no duplicates. -/
theorem createBuildings_names (ok : String → Bool) (newId : String → String)
    (uid : String) (studyRooms : List StudyRoomData) (rooms : List RoomData)
    (hok : ∀ n, ok n = true) :
    ((createBuildings ok newId uid studyRooms rooms).created.map Building.name).Nodup ∧
    (∀ x : String,
      x ∈ (createBuildings ok newId uid studyRooms rooms).created.map Building.name ↔
        ((∃ r ∈ studyRooms, r.building ≠ "" ∧ x = normalizeBuildingName r.building) ∨
         (∃ r ∈ rooms, r.building ≠ "" ∧ x = normalizeBuildingName r.building))) := by
  have hnames : (createBuildings ok newId uid studyRooms rooms).created.map Building.name
      = collectBuildingNames studyRooms rooms := by
    unfold createBuildings
    rw [createBuildings_foldl_created ok newId uid hok]
    simp [List.map_map, Function.comp_def]
  rw [hnames]
  refine ⟨nodup_foldl_addBuildingName _ _ _ (nodup_foldl_addBuildingName _ _ _ List.nodup_nil), ?_⟩
  intro x
  unfold collectBuildingNames
  rw [mem_foldl_addBuildingName, mem_foldl_addBuildingName]
  simp

/-- Witness for C2-amended at a concrete run with two records that share
a normalized building name. -/
theorem createBuildings_names_witness :
    ((createBuildings (fun _ => true) (fun n => "b-" ++ n) "u1"
        [{ emptyBuildingRoom with building := "Peters" },
         { emptyBuildingRoom with id := "sr2", building := "Peters Building" }]
        []).created.map Building.name).Nodup ∧
    "Peters Building" ∈ (createBuildings (fun _ => true) (fun n => "b-" ++ n) "u1"
        [{ emptyBuildingRoom with building := "Peters" },
         { emptyBuildingRoom with id := "sr2", building := "Peters Building" }]
        []).created.map Building.name := by
  have h := createBuildings_names (fun _ => true) (fun n => "b-" ++ n) "u1"
    [{ emptyBuildingRoom with building := "Peters" },
     { emptyBuildingRoom with id := "sr2", building := "Peters Building" }]
    [] (fun _ => rfl)
  refine ⟨h.1, (h.2 "Peters Building").mpr ?_⟩
  exact Or.inl ⟨{ emptyBuildingRoom with building := "Peters" }, by simp, by decide, by decide⟩

/-- C3: each of the four capability fields of the created LectureHall row
is true exactly when the corresponding source string is the literal yes;
any other value, a missing one included, yields false. -/
theorem mkLectureHall_capabilities (id buildingId : String) (r : RoomData) :
    ((mkLectureHall id buildingId r).hasAvInputs = true ↔
        r.information.av_inputs = some "yes") ∧
    ((mkLectureHall id buildingId r).hasPc = true ↔
        r.information.pc = some "yes") ∧
    ((mkLectureHall id buildingId r).hasWhiteboard = true ↔
        r.information.whiteboard = some "yes") ∧
    ((mkLectureHall id buildingId r).hasProjector = true ↔
        r.information.projector = some "yes") := by
  simp [mkLectureHall]

lemma migrateStudySpots_foldl (ok : StudyRoomData → Bool) (newId : String → String)
    (buildingMap : List (String × String)) (l : List StudyRoomData) (acc : SpotsResult) :
    l.foldl (migrateStudySpotStep ok newId buildingMap) acc
      = ⟨acc.studySpotMap ++ l.filterMap
            (fun r => (resolveBuilding buildingMap r.building).bind
              (fun _ => if ok r then some (r.id, newId r.id) else none)),
         acc.created ++ l.filterMap
            (fun r => (resolveBuilding buildingMap r.building).bind
              (fun bid => if ok r then some (mkStudySpot (newId r.id) bid r) else none)),
         acc.errors ++ (l.filter
            (fun r => !((resolveBuilding buildingMap r.building).isSome && ok r))).map
              (fun r => "Failed to create study spot " ++ r.name)⟩ := by
  induction l generalizing acc with
  | nil => simp
  | cons hd tl ih =>
      rw [List.foldl_cons, ih]
      cases hres : resolveBuilding buildingMap hd.building with
      | none => simp [migrateStudySpotStep, hres, List.filterMap_cons, List.filter_cons]
      | some bid =>
          by_cases hok : ok hd
          · simp [migrateStudySpotStep, hres, hok, List.filterMap_cons, List.filter_cons]
          · simp [migrateStudySpotStep, hres, hok, List.filterMap_cons, List.filter_cons]

lemma migrateLectureHalls_foldl (ok : RoomData → Bool) (newId : String → String)
    (buildingMap : List (String × String)) (l : List RoomData) (acc : HallsResult) :
    l.foldl (migrateLectureHallStep ok newId buildingMap) acc
      = ⟨acc.lectureHallMap ++ l.filterMap
            (fun r => (resolveBuilding buildingMap r.building).bind
              (fun _ => if ok r then some (r.id, newId r.id) else none)),
         acc.created ++ l.filterMap
            (fun r => (resolveBuilding buildingMap r.building).bind
              (fun bid => if ok r then some (mkLectureHall (newId r.id) bid r) else none)),
         acc.errors ++ (l.filter
            (fun r => !((resolveBuilding buildingMap r.building).isSome && ok r))).map
              (fun r => "Failed to create lecture hall " ++ r.room)⟩ := by
  induction l generalizing acc with
  | nil => simp
  | cons hd tl ih =>
      rw [List.foldl_cons, ih]
      cases hres : resolveBuilding buildingMap hd.building with
      | none => simp [migrateLectureHallStep, hres, List.filterMap_cons, List.filter_cons]
      | some bid =>
          by_cases hok : ok hd
          · simp [migrateLectureHallStep, hres, hok, List.filterMap_cons, List.filter_cons]
          · simp [migrateLectureHallStep, hres, hok, List.filterMap_cons, List.filter_cons]

/-- C4: in both migration loops a record whose building does not resolve
produces no row and exactly one error whatever the store does, a record
whose building resolves produces its row exactly when the store accepts
the insert and one error when it rejects it, and either failure leaves
every other record of the run untouched. -/
theorem migrate_unresolved_record (okSpot : StudyRoomData → Bool) (okHall : RoomData → Bool)
    (newSpotId newHallId : String → String)
    (buildingMap : List (String × String))
    (studyRooms : List StudyRoomData) (rooms : List RoomData) :
    ((migrateStudySpots okSpot newSpotId buildingMap studyRooms).created
        = studyRooms.filterMap
            (fun r => (resolveBuilding buildingMap r.building).bind
              (fun bid => if okSpot r then some (mkStudySpot (newSpotId r.id) bid r)
                else none)) ∧
      (migrateStudySpots okSpot newSpotId buildingMap studyRooms).errors
        = (studyRooms.filter
            (fun r => !((resolveBuilding buildingMap r.building).isSome && okSpot r))).map
              (fun r => "Failed to create study spot " ++ r.name)) ∧
    ((migrateLectureHalls okHall newHallId buildingMap rooms).created
        = rooms.filterMap
            (fun r => (resolveBuilding buildingMap r.building).bind
              (fun bid => if okHall r then some (mkLectureHall (newHallId r.id) bid r)
                else none)) ∧
      (migrateLectureHalls okHall newHallId buildingMap rooms).errors
        = (rooms.filter
            (fun r => !((resolveBuilding buildingMap r.building).isSome && okHall r))).map
              (fun r => "Failed to create lecture hall " ++ r.room)) := by
  unfold migrateStudySpots migrateLectureHalls
  rw [migrateStudySpots_foldl, migrateLectureHalls_foldl]
  simp

lemma processImagesFrom_eq (ok : String → Bool) (mkPhoto : Nat → Photo) (errMsg : String)
    (urls : List String) : ∀ i : Nat,
    processImagesFrom ok mkPhoto errMsg i urls
      = (((List.enumFrom i urls).filter (fun p => ok p.2)).map (fun p => mkPhoto p.1),
         ((List.enumFrom i urls).filter (fun p => !ok p.2)).map (fun _ => errMsg)) := by
  induction urls with
  | nil => intro i; rfl
  | cons hd tl ih =>
      intro i
      by_cases h : ok hd
      · simp [processImagesFrom, ih (i + 1), h, List.enumFrom, List.filter_cons]
      · simp [processImagesFrom, ih (i + 1), h, List.enumFrom, List.filter_cons]

/-- C5: within one record the images are handled independently: the Photo
rows are exactly one per successful URL, keeping the positional index of
the source list, and the errors are exactly one per failed URL. -/
theorem processStudyRoomPhotos_per_image (ok : String → Bool)
    (base universityId sid : String) (studySpotMap : List (String × String))
    (room : StudyRoomData) (urls : List String)
    (h1 : room.imageURL = some urls) (h2 : urls ≠ [])
    (h3 : studySpotMap.lookup room.id = some sid) (h4 : sid ≠ "") :
    (processStudyRoomPhotos ok base universityId studySpotMap room).1
      = ((List.enumFrom 0 urls).filter (fun p => ok p.2)).map
          (fun p => spotPhotoAt base universityId sid p.1) ∧
    (processStudyRoomPhotos ok base universityId studySpotMap room).2
      = ((List.enumFrom 0 urls).filter (fun p => !ok p.2)).map
          (fun _ => "Failed to process photo for study spot " ++ room.name) := by
  unfold processStudyRoomPhotos
  rw [h1, h3]
  simp only [List.length_eq_zero, h2, if_false, h4, if_false]
  rw [processImagesFrom_eq]
  exact ⟨rfl, rfl⟩

/-- Witness for C5: three URLs whose second attempt fails yield exactly
the Photo rows at indices 0 and 2 and exactly one error. -/
theorem processStudyRoomPhotos_per_image_witness :
    (processStudyRoomPhotos (fun u => u != "ub") "https://sb" "u1" [("r1", "s1")]
        { id := "r1", name := "Reading Room", building := "Arts", spaceType := none,
          location := "L2", imageURL := some ["ua", "ub", "uc"], features := [],
          noiseLevel := "low", capacity := none, description := "d" }).1
      = [spotPhotoAt "https://sb" "u1" "s1" 0, spotPhotoAt "https://sb" "u1" "s1" 2] ∧
    (processStudyRoomPhotos (fun u => u != "ub") "https://sb" "u1" [("r1", "s1")]
        { id := "r1", name := "Reading Room", building := "Arts", spaceType := none,
          location := "L2", imageURL := some ["ua", "ub", "uc"], features := [],
          noiseLevel := "low", capacity := none, description := "d" }).2
      = ["Failed to process photo for study spot Reading Room"] := by
  have h := processStudyRoomPhotos_per_image (fun u => u != "ub") "https://sb" "u1" "s1"
    [("r1", "s1")]
    { id := "r1", name := "Reading Room", building := "Arts", spaceType := none,
      location := "L2", imageURL := some ["ua", "ub", "uc"], features := [],
      noiseLevel := "low", capacity := none, description := "d" }
    ["ua", "ub", "uc"] rfl (by decide) (by decide) (by decide)
  exact ⟨h.1.trans (by decide), h.2.trans (by decide)⟩

/-- C10: a record whose id has no entry in the id lookup table is skipped
silently in the photo stage, producing neither Photo rows nor errors, for
spaces-dataset and rooms-dataset records alike. -/
theorem processPhotos_skips_unmapped (ok : String → Bool) (base universityId : String)
    (studySpotMap lectureHallMap : List (String × String))
    (sroom : StudyRoomData) (rroom : RoomData)
    (h1 : studySpotMap.lookup sroom.id = none)
    (h2 : lectureHallMap.lookup rroom.id = none) :
    processStudyRoomPhotos ok base universityId studySpotMap sroom = ([], []) ∧
    processRoomPhotos ok base universityId lectureHallMap rroom = ([], []) := by
  constructor
  · unfold processStudyRoomPhotos
    cases hu : sroom.imageURL with
    | none => rfl
    | some urls => simp [h1]
  · unfold processRoomPhotos
    cases hu : rroom.photos with
    | none => rfl
    | some urls => simp [h2]

/-- Witness for C10 at concrete records absent from the lookup tables. -/
theorem processPhotos_skips_unmapped_witness :
    processStudyRoomPhotos (fun _ => true) "https://sb" "u1" []
        { id := "r9", name := "N", building := "Arts", spaceType := none, location := "L",
          imageURL := some ["ua"], features := [], noiseLevel := "low", capacity := none,
          description := "d" } = ([], []) ∧
    processRoomPhotos (fun _ => true) "https://sb" "u1" []
        { id := "h9", building := "Arts", photos := some ["ua"], room := "BA101",
          information := ⟨none, none, none, none⟩ } = ([], []) :=
  processPhotos_skips_unmapped (fun _ => true) "https://sb" "u1" [] []
    { id := "r9", name := "N", building := "Arts", spaceType := none, location := "L",
      imageURL := some ["ua"], features := [], noiseLevel := "low", capacity := none,
      description := "d" }
    { id := "h9", building := "Arts", photos := some ["ua"], room := "BA101",
      information := ⟨none, none, none, none⟩ } rfl rfl

/-- C6 as stated is false: the path the code builds for the first image
of a study spot starts with a universities segment, so it matches no
instantiation of the organizations layout of the spec, whichever kind
segment, organization id, entity id and extension are chosen. -/
theorem storagePath_claim_counterexample :
    ¬ ∃ (orgId kind entityId ext : String),
        (kind = "spots" ∨ kind = "halls") ∧
        spotStoragePath "u1" "s1" 0 = specStoragePath orgId kind entityId 0 ext := by
  rintro ⟨o, k, e, x, -, heq⟩
  have hdata := congrArg String.data heq
  simp only [specStoragePath, String.data_append] at hdata
  have hhead := congrArg List.head? hdata
  simp only [List.head?_append] at hhead
  rw [show ("organizations/".data.head? = some 'o') from rfl] at hhead
  rw [show ((spotStoragePath "u1" "s1" 0).data.head? = some 'u') from rfl] at hhead
  simp at hhead

lemma processStudyRoomPhotos_fst_eq (ok : String → Bool) (base universityId : String)
    (studySpotMap : List (String × String)) (room : StudyRoomData) :
    (processStudyRoomPhotos ok base universityId studySpotMap room).1
      = match room.imageURL, studySpotMap.lookup room.id with
        | some urls, some sid =>
            if urls.length = 0 then [] else if sid = "" then []
            else ((List.enumFrom 0 urls).filter (fun q => ok q.2)).map
                  (fun q => spotPhotoAt base universityId sid q.1)
        | _, _ => [] := by
  unfold processStudyRoomPhotos
  cases hu : room.imageURL with
  | none => cases studySpotMap.lookup room.id <;> rfl
  | some urls =>
      cases hm : studySpotMap.lookup room.id with
      | none => by_cases hl : urls.length = 0 <;> simp [hl]
      | some sid =>
          by_cases hl : urls.length = 0
          · simp [hl]
          · by_cases hs : sid = ""
            · simp [hl, hs]
            · simp only [if_neg hl, if_neg hs]
              rw [processImagesFrom_eq]

lemma processRoomPhotos_fst_eq (ok : String → Bool) (base universityId : String)
    (lectureHallMap : List (String × String)) (room : RoomData) :
    (processRoomPhotos ok base universityId lectureHallMap room).1
      = match room.photos, lectureHallMap.lookup room.id with
        | some urls, some hid =>
            if urls.length = 0 then [] else if hid = "" then []
            else ((List.enumFrom 0 urls).filter (fun q => ok q.2)).map
                  (fun q => hallPhotoAt base universityId hid q.1)
        | _, _ => [] := by
  unfold processRoomPhotos
  cases hu : room.photos with
  | none => cases lectureHallMap.lookup room.id <;> rfl
  | some urls =>
      cases hm : lectureHallMap.lookup room.id with
      | none => by_cases hl : urls.length = 0 <;> simp [hl]
      | some hid =>
          by_cases hl : urls.length = 0
          · simp [hl]
          · by_cases hs : hid = ""
            · simp [hl, hs]
            · simp only [if_neg hl, if_neg hs]
              rw [processImagesFrom_eq]

lemma foldl_photos_fst {α : Type} (f : α → List Photo × List String) (l : List α) :
    ∀ acc : List Photo × List String,
      (l.foldl (fun a r => (a.1 ++ (f r).1, a.2 ++ (f r).2)) acc).1
        = acc.1 ++ l.flatMap (fun r => (f r).1) := by
  induction l with
  | nil => intro acc; simp
  | cons hd tl ih =>
      intro acc
      rw [List.foldl_cons, ih]
      simp [List.flatMap_cons]

/-- C6 amended: the photo stage uploads exactly, record by record in
source order, the successfully processed images of each reachable
record, each Photo row carrying the deterministic storage path keyed by
the university id, the entity-kind segment study-spots or lecture-halls,
the owning entity id and the image position in the record image list,
and linked to exactly that entity. -/
theorem processPhotos_storage_layout (ok : String → Bool) (base universityId : String)
    (studySpotMap lectureHallMap : List (String × String))
    (studyRooms : List StudyRoomData) (rooms : List RoomData) :
    (processPhotos ok base universityId studySpotMap lectureHallMap studyRooms rooms).1
      = (studyRooms.flatMap (fun r =>
          match r.imageURL, studySpotMap.lookup r.id with
          | some urls, some sid =>
              if urls.length = 0 then [] else if sid = "" then []
              else ((List.enumFrom 0 urls).filter (fun q => ok q.2)).map
                    (fun q => spotPhotoAt base universityId sid q.1)
          | _, _ => []))
        ++ (rooms.flatMap (fun r =>
          match r.photos, lectureHallMap.lookup r.id with
          | some urls, some hid =>
              if urls.length = 0 then [] else if hid = "" then []
              else ((List.enumFrom 0 urls).filter (fun q => ok q.2)).map
                    (fun q => hallPhotoAt base universityId hid q.1)
          | _, _ => [])) ∧
    (∀ sid i, spotPhotoAt base universityId sid i
        = ⟨spotStoragePath universityId sid i,
           publicUrlFor base (spotStoragePath universityId sid i), some sid, none⟩) ∧
    (∀ hid i, hallPhotoAt base universityId hid i
        = ⟨hallStoragePath universityId hid i,
           publicUrlFor base (hallStoragePath universityId hid i), none, some hid⟩) := by
  refine ⟨?_, fun _ _ => rfl, fun _ _ => rfl⟩
  unfold processPhotos
  rw [foldl_photos_fst, foldl_photos_fst]
  simp only [processStudyRoomPhotos_fst_eq, processRoomPhotos_fst_eq, List.nil_append]

/-- C7: the migrate entry point performs the unconditional deletions in
child-to-parent order and then the remaining steps in the fixed order,
and the deletion phase leaves every destination table empty before any
creation step runs. -/
theorem migrate_step_order (okBuilding : String → Bool)
    (okSpotCreate : StudyRoomData → Bool) (okHallCreate : RoomData → Bool)
    (okImage : String → Bool) (newUid : String)
    (newBuildingId newSpotId newHallId : String → String) (base : String)
    (studyRooms : List StudyRoomData) (rooms : List RoomData) (db : DB) :
    (migrate okBuilding okSpotCreate okHallCreate okImage newUid
        newBuildingId newSpotId newHallId base studyRooms rooms db).2
      = [Step.deletePhotos, Step.deleteStudySpots, Step.deleteLectureHalls,
         Step.deleteBuildings, Step.deleteUniversities, Step.ensureBucket,
         Step.createUniversityStep, Step.createBuildingsStep,
         Step.migrateStudySpotsStep, Step.migrateLectureHallsStep,
         Step.processPhotosStep] ∧
    (clearExistingData db).1 = emptyDB := by
  constructor
  · rfl
  · cases db; rfl

lemma lookup_fsWrite (fs : FileSystem) (p content : String) :
    (fsWrite fs p content).lookup p = some content := by
  unfold fsWrite
  induction fs with
  | nil => simp [List.lookup]
  | cons hd tl ih =>
      by_cases h : hd.1 = p
      · simpa [List.filter_cons, h] using ih
      · have hne : (p == hd.1) = false := by simp [Ne.symm h]
        simpa [List.filter_cons, h, List.lookup, hne] using ih

/-- C8: exporting a collection that holds zero documents still writes its
JSON file, whose content is the empty-array literal. -/
theorem exportCollection_empty (store : FireStore) (c outputDir : String)
    (fs : FileSystem) (h : store.lookup c = some []) :
    (exportCollectionToJson store c outputDir fs).lookup
        (pathJoin outputDir (c ++ ".json")) = some "[]" := by
  have hdocs : getCollectionData store c = [] := by
    unfold getCollectionData
    rw [h]
    rfl
  unfold exportCollectionToJson saveToJson
  rw [hdocs, lookup_fsWrite]
  rfl

/-- Witness for C8 at a concrete store holding one empty collection. -/
theorem exportCollection_empty_witness :
    (exportCollectionToJson [("rooms", [])] "rooms" "./data/collections" []).lookup
        (pathJoin "./data/collections" ("rooms" ++ ".json")) = some "[]" :=
  exportCollection_empty [("rooms", [])] "rooms" "./data/collections" [] rfl

/-- C9: for a decoded image whose metadata carries its true nonzero
dimensions, the transcode step scales width and height to thirty percent,
rounding to the nearest integer. -/
theorem optimizeDims_scale (w h : Nat) (hw : w ≠ 0) (hh : h ≠ 0) :
    optimizeDims (some w) (some h)
      = (round ((w : ℚ) * (3 / 10)), round ((h : ℚ) * (3 / 10))) := by
  unfold optimizeDims newDimension jsOrNat
  simp [hw, hh]

/-- Witness for C9 at five-by-seven input: thirty percent gives one point
five and two point one, rounding to two and two. -/
theorem optimizeDims_scale_witness : optimizeDims (some 5) (some 7) = (2, 2) := by
  have h := optimizeDims_scale 5 7 (by decide) (by decide)
  rw [h]
  simp only [Prod.mk.injEq]
  constructor <;> norm_num [round_eq]

end Occupeye
